import Mathlib

/-!
Shallow embedding of the translator-agent message-orchestration pipeline and
its persistent memory layer, translated from `src/simple_memory_service.py`,
`src/langchain_service.py` and `src/tutor_app.py`.

External collaborators (the Ollama inference backend, the `json` library and
the Mem0 semantic index) are modelled as explicit inputs: each LLM invocation
outcome is an `Except String String` value (error payload = the message text
of the raised exception), `json.loads` is an explicit partial function, and
the Mem0 search outcome is an `Option (Except String Mem0Result)` where
`none` models an unconfigured index.  File-system timestamps and fresh uuid
values are supplied as parameters.  Python character slicing `s[:n]` is
modelled by `take_chars` (code-point based, as in Python).
-/

set_option maxRecDepth 100000

namespace TranslatorAgent

/-- A key/value map with string values, modelling the Python dicts that the
pipeline reads with `.get(key, default)`. -/
abbrev Dict := List (String × String)

/-- Python `d.get(k, default)`. -/
def dict_get (d : Dict) (k default : String) : String :=
  match d.lookup k with
  | some v => v
  | none => default

/-- Python code-point slice `s[:n]`. -/
def take_chars (s : String) (n : Nat) : String :=
  String.mk (s.toList.take n)

/-- Python `str.strip()`: drop whitespace from both ends. -/
def strip_ws (s : String) : String :=
  String.mk (((s.toList.dropWhile Char.isWhitespace).reverse.dropWhile
    Char.isWhitespace).reverse)

/-- A message persisted inside a conversation record
(`simple_memory_service.add_message_to_conversation` builds
`{id, role, content, timestamp}`). -/
structure StoredMessage where
  id : String
  role : String
  content : String
  timestamp : Nat
deriving DecidableEq

/-- Helper building the message dict exactly as
`add_message_to_conversation` does. -/
def mk_message (id role content : String) (timestamp : Nat) : StoredMessage :=
  { id := id, role := role, content := content, timestamp := timestamp }

/-- One persisted conversation record
(`{id, title, created_at, updated_at, messages}`). -/
structure Conversation where
  id : String
  title : String
  created_at : Nat
  updated_at : Nat
  messages : List StoredMessage
deriving DecidableEq

/-- The conversation store: the directory of per-conversation JSON files,
as a map from conversation id to record (`none` = no such file). -/
abbrev Store := String → Option Conversation

/-- Overwriting the whole per-conversation record, as the Python
read-modify-write does. -/
def Store.set (s : Store) (cid : String) (conv : Conversation) : Store :=
  fun k => if k = cid then some conv else s k

/-- `SimpleMemoryService.load_conversation`: returns the message list when
the file exists, and `[]` (after logging a warning) when it does not. -/
def load_conversation (s : Store) (cid : String) : List StoredMessage :=
  match s cid with
  | some conv => conv.messages
  | none => []

/-- `SimpleMemoryService.add_message_to_conversation`: returns `False`
leaving the store unchanged when the conversation file does not exist,
otherwise appends a fresh message, bumps `updated_at` and returns `True`. -/
def add_message_to_conversation (s : Store) (cid role content fresh_id : String)
    (now : Nat) : Bool × Store :=
  match s cid with
  | none => (false, s)
  | some conv =>
      (true, Store.set s cid
        { conv with
          messages := conv.messages ++ [mk_message fresh_id role content now],
          updated_at := now })

/-- `SimpleMemoryService.update_conversation_title`. -/
def update_conversation_title (s : Store) (cid title : String) (now : Nat) :
    Bool × Store :=
  match s cid with
  | none => (false, s)
  | some conv => (true, Store.set s cid { conv with title := title, updated_at := now })

/-- `SimpleMemoryService.delete_message_from_conversation`: filters out the
message with the given id; when nothing was removed it returns `False`
without writing the file back. -/
def delete_message_from_conversation (s : Store) (cid message_id : String)
    (now : Nat) : Bool × Store :=
  match s cid with
  | none => (false, s)
  | some conv =>
      let remaining := conv.messages.filter (fun m => m.id != message_id)
      if remaining.length = conv.messages.length then (false, s)
      else (true, Store.set s cid { conv with messages := remaining, updated_at := now })

/-- One entry of the per-user translation log file
(`translations_{user_id}.json`). -/
structure TranslationEntry where
  original_text : String
  translated_text : String
  source_language : String
  target_language : String
  timestamp : Nat
  metadata : Dict
deriving DecidableEq

/-- `SimpleMemoryService._save_translation_to_log` acting on the loaded log
list: append the new entry, then keep only the last 100 entries. -/
def save_translation_to_log (log : List TranslationEntry) (entry : TranslationEntry) :
    List TranslationEntry :=
  let translations := log ++ [entry]
  if 100 < translations.length then translations.drop (translations.length - 100)
  else translations

/-- Argument payload of a tool call as returned by the Ollama tools API:
either an already-decoded map or a string-encoded JSON payload that
`_route_message` runs through `json.loads`. -/
inductive ToolArguments where
  | decoded (args : Dict)
  | encoded (raw : String)

/-- One structured tool call of the routing response. -/
structure OllamaToolCall where
  name : String
  arguments : ToolArguments

/-- The message part of the `ollama.chat` routing response. -/
structure OllamaMessage where
  content : String
  tool_calls : List OllamaToolCall

/-- The decision `_route_message` returns: `{"tool": ..., "args": ...}`. -/
structure RouteDecision where
  tool : String
  args : Dict
deriving DecidableEq

/-- `LangChainTutorService._route_message`.  `json_loads` is the standard
`json.loads`, partial (`none` = raised a parse error); `resp` is the outcome
of the `ollama.chat` call (`Except.error` = the call raised). -/
def route_message (json_loads : String → Option Dict)
    (resp : Except String OllamaMessage) : RouteDecision :=
  match resp with
  | Except.error _ => { tool := "chat", args := [] }
  | Except.ok m =>
    match m.tool_calls with
    | [] => { tool := "chat", args := [] }
    | tc :: _ =>
      let args :=
        match tc.arguments with
        | ToolArguments.decoded a => a
        | ToolArguments.encoded raw =>
          match json_loads raw with
          | some a => a
          | none => []
      { tool := tc.name, args := args }

/-- One item of a Mem0 search result, which may be a dict (read with
`m.get("memory", m.get("text", ""))`), a bare string, or anything else
(stringified with `str(m)`). -/
inductive Mem0Item where
  | dict (entries : Dict)
  | str (s : String)
  | other (s : String)

/-- Text extracted from a Mem0 result item in `_send_message`. -/
def mem0_item_text : Mem0Item → String
  | Mem0Item.dict entries => dict_get entries "memory" (dict_get entries "text" "")
  | Mem0Item.str s => s
  | Mem0Item.other s => s

/-- The raw Mem0 search response shape: a dict keyed by `results` or
`memories`, a bare list, or an unexpected shape. -/
inductive Mem0Result where
  | dict (entries : List (String × List Mem0Item))
  | list (items : List Mem0Item)
  | other

/-- `results_list` normalisation in `_send_message`:
`mem0_results.get("results", mem0_results.get("memories", []))` for dicts,
the list itself for lists, `[]` otherwise. -/
def mem0_results_list : Mem0Result → List Mem0Item
  | Mem0Result.dict entries =>
    match entries.lookup "results" with
    | some l => l
    | none =>
      match entries.lookup "memories" with
      | some l => l
      | none => []
  | Mem0Result.list items => items
  | Mem0Result.other => []

/-- The `mem0_memories` list gathered in `_send_message`: `[]` when the index
is not configured (`none`) or its search raised (`Except.error`); otherwise
the normalised item texts, keeping only non-empty ones. -/
def gather_memories : Option (Except String Mem0Result) → List String
  | none => []
  | some (Except.error _) => []
  | some (Except.ok r) =>
      ((mem0_results_list r).map mem0_item_text).filter (fun t => t != "")

/-- All per-turn external inputs of the pipeline: the two execution models,
`json.loads`, the routing-call outcome, the Mem0 search outcome, the user
profile, and the fresh ids / timestamps the store writes would draw from
`uuid4()` / `datetime.now()`. -/
structure TurnEnv where
  translation_llm : String → Except String String
  reasoning_llm : String → String → Except String String
  json_loads : String → Option Dict
  route_resp : Except String OllamaMessage
  mem0 : Option (Except String Mem0Result)
  profile : Dict
  fresh_user_id : String
  fresh_assistant_id : String
  now_user : Nat
  now_assistant : Nat

/-- `memory_str` built in `_execute_and_respond`. -/
def memory_str (memories : List String) : String :=
  if memories.isEmpty then ""
  else "Relevant memories about the user:\n"
    ++ String.intercalate "\n" (memories.map (fun mem => "- " ++ mem))

/-- Python `conversation_history[-6:]`: the window of the six most recent
messages (the whole history when it is shorter). -/
def recent_window (history : List StoredMessage) : List StoredMessage :=
  history.drop (history.length - 6)

/-- One line of the recent-history context: `f"{role}: {content}..."` where
`content` is `msg.get("content", "")[:200]`. -/
def conv_line (m : StoredMessage) : String :=
  m.role ++ ": " ++ take_chars m.content 200 ++ "..."

/-- `conv_str` built in `_execute_and_respond` from the conversation
history. -/
def conv_str (history : List StoredMessage) : String :=
  if history.isEmpty then ""
  else String.intercalate "\n" ((recent_window history).map conv_line)

/-- `LangChainTutorService._execute_and_respond`: dispatch on the routed
tool, build the prompt, invoke the corresponding model, and wrap failures in
a templated apology.  (`args.get("type", "mixed")` of the exercise branch is
computed but unused by the source and is omitted.) -/
def execute_and_respond (env : TurnEnv) (tool : String) (args : Dict)
    (user_message : String) (memories : List String) (profile : Dict)
    (history : List StoredMessage) : String :=
  let user_name := if profile.isEmpty then "Student" else dict_get profile "user_name" "Student"
  let target_lang := if profile.isEmpty then "Spanish" else dict_get profile "target_language" "Spanish"
  if tool = "translate" then
    let text := dict_get args "text" user_message
    let target := dict_get args "target_language" target_lang
    let prompt := "Translate to " ++ target ++ ": " ++ text
    match env.translation_llm prompt with
    | Except.ok content =>
        let translation := strip_ws content
        "Here\x27s the translation to " ++ target ++ ":\n\n**" ++ translation
          ++ "**\n\nWould you like me to break down any part of this?"
    | Except.error e => "Sorry, I had trouble translating that: " ++ e
  else
    let system_prompt :=
      "You are a friendly language tutor helping " ++ user_name ++ " learn "
        ++ target_lang ++ ".\n\n" ++ memory_str memories
        ++ "\n\nBe warm, encouraging, and practical. Keep responses concise but helpful."
    let task :=
      if tool = "teach" then
        let topic := dict_get args "topic" user_message
        let lang := dict_get args "language" target_lang
        "Teach about: " ++ topic ++ " in " ++ lang
          ++ "\n\nInclude:\n1. The word/phrase with pronunciation\n2. Meaning and usage\n3. 1-2 example sentences\n4. A quick tip\n\nKeep it concise and engaging."
      else if tool = "exercise" then
        let lang := dict_get args "language" target_lang
        let difficulty := dict_get args "difficulty" "beginner"
        "Create a quick " ++ difficulty ++ " " ++ lang
          ++ " exercise.\n\n- 3 questions max\n- Include answer key\n- Be encouraging"
      else
        "Student says: \"" ++ user_message ++ "\"\n\n" ++ conv_str history
          ++ "\n\nRespond naturally as their tutor. Be friendly and helpful."
    match env.reasoning_llm system_prompt task with
    | Except.ok content => strip_ws content
    | Except.error e => "Sorry, I encountered an error: " ++ e

/-- `LangChainTutorService.chat_with_tutor` (response text): route, then
execute.  Its outer try/except has no remaining raise site once the
collaborator outcomes are explicit values, so the result is always the
`success` response. -/
def chat_with_tutor (env : TurnEnv) (message : String)
    (history : List StoredMessage) (memories : List String) : String :=
  let route := route_message env.json_loads env.route_resp
  execute_and_respond env route.tool route.args message memories env.profile history

/-- Context gathering of `_send_message`: the active conversation read from
the Conversation Store, plus the gathered Mem0 memories. -/
def assemble_turn_context (store : Store) (cid : String)
    (m : Option (Except String Mem0Result)) : List StoredMessage × List String :=
  (load_conversation store cid, gather_memories m)

/-- Title derivation in `_update_conversation_title`:
`first_msg[:50] + ("..." if len(first_msg) > 50 else "")`. -/
def derive_title (s : String) : String :=
  take_chars s 50 ++ (if 50 < s.length then "..." else "")

/-- `TutorApp._update_conversation_title`: reload the conversation and, when
it has at least one message, persist a title derived from the first
message's content. -/
def update_title_step (store : Store) (cid : String) (now : Nat) : Store :=
  match load_conversation store cid with
  | [] => store
  | m :: _ => (update_conversation_title store cid (derive_title m.content) now).2

/-- The Mem0 `add` payload built by the async `store_in_mem0` closure of
`_handle_response`: `self.mem0.add(messages, user_id=self.user_id)` —
no metadata argument is passed. -/
structure Mem0AddCall where
  messages : List (String × String)
  user_id : String
  metadata : Option Dict
deriving DecidableEq

/-- Builds the exact Mem0 `add` call issued after a turn. -/
def store_in_mem0_call (profile : Dict) (user_id pending_user_message response : String) :
    Mem0AddCall :=
  let user_name := if profile.isEmpty then "Student" else dict_get profile "user_name" "Student"
  let target_lang := if profile.isEmpty then "Spanish" else dict_get profile "target_language" "Spanish"
  { messages :=
      [("user", user_name ++ " (learning " ++ target_lang ++ ") said: " ++ pending_user_message),
       ("assistant", "Tutor responded: " ++ response)],
    user_id := user_id,
    metadata := none }

/-- The `category` tag of a Mem0 add call, read from its metadata map. -/
def Mem0AddCall.category (c : Mem0AddCall) : Option String :=
  match c.metadata with
  | none => none
  | some d => d.lookup "category"

/-- One full turn: `_send_message` followed by `_handle_response` (the
single-turn sequential view of §5).  Persist the user message, assemble
context, route + execute, persist the assistant reply, update the title.
The async Mem0 write it also spawns is modelled by `store_in_mem0_call`. -/
def send_message_turn (env : TurnEnv) (store : Store) (cid message : String) :
    String × Store :=
  let store1 := (add_message_to_conversation store cid "user" message
    env.fresh_user_id env.now_user).2
  let ctx := assemble_turn_context store1 cid env.mem0
  let response := chat_with_tutor env message ctx.1 ctx.2
  let store2 := (add_message_to_conversation store1 cid "assistant" response
    env.fresh_assistant_id env.now_assistant).2
  let store3 := update_title_step store2 cid env.now_assistant
  (response, store3)

/-! ## Helper lemmas -/

/-- Reading back the conversation just written. -/
theorem Store.set_same (s : Store) (cid : String) (conv : Conversation) :
    Store.set s cid conv cid = some conv := by
  simp [Store.set]

/-! ## Claim C1 — router terminal fallback -/

/-- Claim C1: for every user message, if the classification model returns no
structured tool call, or the routing call raises any exception, then
`_route_message` returns `{tool: "chat", args: {}}` (and, being a total
function of the collaborator outcomes, never raises); and when a returned
tool call's string-encoded arguments fail JSON parsing, routing proceeds
with the tool name and an empty-argument map. -/
theorem route_message_terminal_fallback :
    (∀ (json_loads : String → Option Dict) (e : String),
      route_message json_loads (Except.error e) = { tool := "chat", args := [] }) ∧
    (∀ (json_loads : String → Option Dict) (m : OllamaMessage),
      m.tool_calls = [] →
      route_message json_loads (Except.ok m) = { tool := "chat", args := [] }) ∧
    (∀ (json_loads : String → Option Dict) (m : OllamaMessage)
      (tool raw : String) (rest : List OllamaToolCall),
      m.tool_calls = { name := tool, arguments := ToolArguments.encoded raw } :: rest →
      json_loads raw = none →
      route_message json_loads (Except.ok m) = { tool := tool, args := [] }) := by
  refine ⟨fun _ _ => rfl, ?_, ?_⟩
  · intro jl m h
    simp [route_message, h]
  · intro jl m tool raw rest hm hp
    simp [route_message, hm, hp]

/-- Witness for C1: concrete routing failure, concrete plain-text response,
and a concrete tool call whose string arguments fail to parse. -/
theorem route_message_terminal_fallback_witness :
    route_message (fun _ => none) (Except.error "timeout")
        = { tool := "chat", args := [] } ∧
    route_message (fun _ => none)
        (Except.ok { content := "plain text reply", tool_calls := [] })
        = { tool := "chat", args := [] } ∧
    route_message (fun _ => none)
        (Except.ok { content := "",
                     tool_calls := [{ name := "translate",
                                      arguments := ToolArguments.encoded "oops" }] })
        = { tool := "translate", args := [] } :=
  ⟨route_message_terminal_fallback.1 (fun _ => none) "timeout",
   route_message_terminal_fallback.2.1 (fun _ => none) _ rfl,
   route_message_terminal_fallback.2.2 (fun _ => none) _ "translate" "oops" [] rfl rfl⟩

/-! ## Claim C6 — store behaviour on unknown conversation ids -/

/-- Counterexample to C6 as stated: on an unknown conversation id the store
operations do not surface any typed error — `add_message_to_conversation`
returns the success-like value `False` with the store unchanged, and
`load_conversation` returns the empty sequence, exactly the behaviours the
claim rules out. -/
theorem store_unknown_id_counterexample :
    add_message_to_conversation (fun _ => none) "missing" "user" "hi" "id1" 0
        = (false, (fun _ => none : Store)) ∧
    load_conversation (fun _ => none) "missing" = [] :=
  ⟨rfl, rfl⟩

/-- Amended C6: for every conversation id not present in the store,
`add_message_to_conversation` returns `False` leaving the store unchanged
(it does not raise), and `load_conversation` returns the empty sequence
(it does not raise). -/
theorem store_unknown_id_returns_defaults (s : Store)
    (cid role content fresh_id : String) (now : Nat) (h : s cid = none) :
    add_message_to_conversation s cid role content fresh_id now = (false, s) ∧
    load_conversation s cid = [] := by
  unfold add_message_to_conversation load_conversation
  rw [h]
  exact ⟨rfl, rfl⟩

/-- A store holding one unrelated conversation, for the C6 witness. -/
def one_conv_store : Store := fun k =>
  if k = "kept" then
    some { id := "kept", title := "T", created_at := 0, updated_at := 0, messages := [] }
  else none

/-- Witness for the amended C6 at a concrete store and unknown id. -/
theorem store_unknown_id_returns_defaults_witness :
    add_message_to_conversation one_conv_store "missing" "user" "hi" "id1" 0
        = (false, one_conv_store) ∧
    load_conversation one_conv_store "missing" = [] :=
  store_unknown_id_returns_defaults one_conv_store "missing" "user" "hi" "id1" 0 rfl

/-! ## Claim C7 — context assembly under memory-subsystem failure -/

/-- Claim C7: whenever the Semantic Memory Index is unavailable (`none`) or
its search raised (`Except.error`), context assembly completes with
`memories = []` (total function: it does not raise) while the recent history
is still read from the Conversation Store. -/
theorem assemble_context_memory_failure (store : Store) (cid : String)
    (m : Option (Except String Mem0Result))
    (h : m = none ∨ ∃ e, m = some (Except.error e)) :
    assemble_turn_context store cid m = (load_conversation store cid, []) := by
  rcases h with h | ⟨e, h⟩ <;> subst h <;> rfl

/-- Witness for C7: a concrete store whose conversation holds one message,
with a concretely failing memory search — history is populated, memories are
empty. -/
theorem assemble_context_memory_failure_witness :
    assemble_turn_context one_conv_store "kept" (some (Except.error "index down"))
        = (load_conversation one_conv_store "kept", []) :=
  assemble_context_memory_failure one_conv_store "kept" _ (Or.inr ⟨"index down", rfl⟩)

/-! ## Claim C9 — deleting an absent message id is a no-op -/

/-- Claim C9: for every existing conversation and every message id not
present in its message sequence, `delete_message_from_conversation` returns
`False` and leaves the store — in particular the stored message sequence and
its length — unchanged (and, being total, does not raise). -/
theorem delete_message_absent_is_noop (s : Store) (cid message_id : String)
    (now : Nat) (conv : Conversation) (hconv : s cid = some conv)
    (habs : ∀ m ∈ conv.messages, m.id ≠ message_id) :
    delete_message_from_conversation s cid message_id now = (false, s) := by
  unfold delete_message_from_conversation
  rw [hconv]
  have hfilter : conv.messages.filter (fun m => m.id != message_id) = conv.messages :=
    List.filter_eq_self.mpr (fun m hm => by simpa using habs m hm)
  simp [hfilter]

/-- A one-message conversation for the C9 witness. -/
def del_demo_conv : Conversation :=
  { id := "c", title := "T", created_at := 0, updated_at := 0,
    messages := [mk_message "m1" "user" "hi" 0] }

/-- Store holding `del_demo_conv`, for the C9 witness. -/
def del_demo_store : Store := fun k => if k = "c" then some del_demo_conv else none

/-- Witness for C9 at a concrete store: deleting the absent id `zz` returns
`False` and the store is unchanged. -/
theorem delete_message_absent_is_noop_witness :
    delete_message_from_conversation del_demo_store "c" "zz" 5 = (false, del_demo_store) :=
  delete_message_absent_is_noop del_demo_store "c" "zz" 5 del_demo_conv rfl (by decide)

/-! ## Claim C10 — translation log keeps the last 100 entries -/

/-- Claim C10: after every call to the translation-log write, the per-user
log holds at most 100 entries; the result is always the suffix of most
recent entries of `log ++ [entry]` (oldest dropped first, insertion order
kept), with the newest entry last. -/
theorem save_translation_to_log_bound (log : List TranslationEntry)
    (entry : TranslationEntry) :
    (save_translation_to_log log entry).length ≤ 100 ∧
    save_translation_to_log log entry = (log ++ [entry]).drop (log.length + 1 - 100) ∧
    (save_translation_to_log log entry).getLast? = some entry := by
  unfold save_translation_to_log
  have hlen : (log ++ [entry]).length = log.length + 1 := by simp
  by_cases h : 100 < (log ++ [entry]).length
  · rw [if_pos h]
    have hk : log.length + 1 - 100 ≤ log.length := by omega
    refine ⟨?_, by rw [hlen], ?_⟩
    · rw [List.length_drop]
      omega
    · rw [hlen, List.drop_append_of_le_length hk, List.getLast?_concat]
  · rw [if_neg h]
    have h0 : log.length + 1 - 100 = 0 := by omega
    refine ⟨by omega, by rw [h0, List.drop_zero], List.getLast?_concat log⟩

/-! ## Turn-pipeline evaluation lemmas -/

/-- The reply a turn computes: route + execute over the history as read back
after the user-message append, with the gathered memories. -/
def turn_response (env : TurnEnv) (message : String) (prior : List StoredMessage) : String :=
  chat_with_tutor env message
    (prior ++ [mk_message env.fresh_user_id "user" message env.now_user])
    (gather_memories env.mem0)

/-- Evaluation of the reply component of a turn on an existing
conversation. -/
theorem send_message_turn_fst (env : TurnEnv) (store : Store) (cid message : String)
    (conv : Conversation) (hconv : store cid = some conv) :
    (send_message_turn env store cid message).1 = turn_response env message conv.messages := by
  simp [send_message_turn, assemble_turn_context, add_message_to_conversation, hconv,
    load_conversation, Store.set, turn_response]

/-- Evaluation of the store component of a turn on an existing conversation:
the final record keeps `id` and `created_at`, appends the user message and
the assistant reply in this order, sets `updated_at` to the second write's
timestamp, and re-derives the title from the first message. -/
theorem send_message_turn_snd (env : TurnEnv) (store : Store) (cid message : String)
    (conv : Conversation) (hconv : store cid = some conv) :
    (send_message_turn env store cid message).2 cid = some
      { id := conv.id,
        title := derive_title ((conv.messages.headD
          (mk_message env.fresh_user_id "user" message env.now_user)).content),
        created_at := conv.created_at,
        updated_at := env.now_assistant,
        messages := conv.messages ++
          [mk_message env.fresh_user_id "user" message env.now_user,
           mk_message env.fresh_assistant_id "assistant"
             (turn_response env message conv.messages) env.now_assistant] } := by
  cases h : conv.messages with
  | nil =>
    simp [send_message_turn, assemble_turn_context, add_message_to_conversation, hconv,
      load_conversation, Store.set, update_title_step, update_conversation_title,
      turn_response, h]
  | cons m rest =>
    simp [send_message_turn, assemble_turn_context, add_message_to_conversation, hconv,
      load_conversation, Store.set, update_title_step, update_conversation_title,
      turn_response, h]

/-! ## Claim C2 — user message persisted before the assistant reply -/

/-- Claim C2: for every turn on an existing conversation, the user message
is persisted before routing/execution (the history read back right after the
user-message append already ends with it), and after the turn completes the
stored sequence holds the user message appended in order before the
assistant reply of the same turn. -/
theorem turn_persists_user_before_assistant (env : TurnEnv) (store : Store)
    (cid message : String) (conv : Conversation) (hconv : store cid = some conv) :
    (load_conversation
        ((add_message_to_conversation store cid "user" message
          env.fresh_user_id env.now_user).2) cid).getLast?
      = some (mk_message env.fresh_user_id "user" message env.now_user) ∧
    ∃ conv' : Conversation,
      (send_message_turn env store cid message).2 cid = some conv' ∧
      conv'.messages = conv.messages ++
        [mk_message env.fresh_user_id "user" message env.now_user,
         mk_message env.fresh_assistant_id "assistant"
           (send_message_turn env store cid message).1 env.now_assistant] := by
  constructor
  · simp [add_message_to_conversation, hconv, load_conversation, Store.set]
  · refine ⟨_, send_message_turn_snd env store cid message conv hconv, ?_⟩
    rw [send_message_turn_fst env store cid message conv hconv]

/-- An empty demo conversation, store and environment used to witness the
turn-level theorems on concrete inputs. -/
def demo_conv : Conversation :=
  { id := "c", title := "New Chat", created_at := 0, updated_at := 0, messages := [] }

/-- Store holding only `demo_conv`. -/
def demo_store : Store := fun k => if k = "c" then some demo_conv else none

/-- A concrete healthy environment: routing call fails (so the decision
degrades to `chat`), the reasoning model answers. -/
def demo_env : TurnEnv :=
  { translation_llm := fun _ => Except.ok "hola",
    reasoning_llm := fun _ _ => Except.ok "Great to meet you!",
    json_loads := fun _ => none,
    route_resp := Except.error "router down",
    mem0 := none,
    profile := [],
    fresh_user_id := "u1",
    fresh_assistant_id := "a1",
    now_user := 10,
    now_assistant := 11 }

/-- Witness for C2 at the concrete demo turn. -/
theorem turn_persists_user_before_assistant_witness :
    (load_conversation
        ((add_message_to_conversation demo_store "c" "user" "hola"
          demo_env.fresh_user_id demo_env.now_user).2) "c").getLast?
      = some (mk_message demo_env.fresh_user_id "user" "hola" demo_env.now_user) ∧
    ∃ conv' : Conversation,
      (send_message_turn demo_env demo_store "c" "hola").2 "c" = some conv' ∧
      conv'.messages = demo_conv.messages ++
        [mk_message demo_env.fresh_user_id "user" "hola" demo_env.now_user,
         mk_message demo_env.fresh_assistant_id "assistant"
           (send_message_turn demo_env demo_store "c" "hola").1 demo_env.now_assistant] :=
  turn_persists_user_before_assistant demo_env demo_store "c" "hola" demo_conv rfl

/-! ## Claim C3 — execution failure yields a persisted apology -/

/-- When both execution models fail with error message `e`, the executor
returns one of the two templated apologies, whatever the routed tool. -/
theorem execute_and_respond_error (env : TurnEnv) (tool : String) (args : Dict)
    (user_message : String) (memories : List String) (profile : Dict)
    (history : List StoredMessage) (e : String)
    (hT : ∀ p, env.translation_llm p = Except.error e)
    (hR : ∀ sys task, env.reasoning_llm sys task = Except.error e) :
    execute_and_respond env tool args user_message memories profile history
      = if tool = "translate" then "Sorry, I had trouble translating that: " ++ e
        else "Sorry, I encountered an error: " ++ e := by
  unfold execute_and_respond
  by_cases h : tool = "translate" <;> simp [h, hT, hR]

/-- Claim C3: for every turn on an existing conversation in which execution
of the inference model raises (both model invocations yield `Except.error e`),
the turn still returns a non-empty templated apology string embedding the
error message `e`, no exception propagates (the pipeline is a total
function), and the store ends up holding both the user message and the
apology as the assistant turn. -/
theorem execution_failure_turn_apology (env : TurnEnv) (store : Store)
    (cid message e : String) (conv : Conversation) (hconv : store cid = some conv)
    (hT : ∀ p, env.translation_llm p = Except.error e)
    (hR : ∀ sys task, env.reasoning_llm sys task = Except.error e) :
    ((send_message_turn env store cid message).1
        = "Sorry, I had trouble translating that: " ++ e ∨
     (send_message_turn env store cid message).1
        = "Sorry, I encountered an error: " ++ e) ∧
    0 < (send_message_turn env store cid message).1.length ∧
    ∃ conv' : Conversation,
      (send_message_turn env store cid message).2 cid = some conv' ∧
      conv'.messages = conv.messages ++
        [mk_message env.fresh_user_id "user" message env.now_user,
         mk_message env.fresh_assistant_id "assistant"
           (send_message_turn env store cid message).1 env.now_assistant] := by
  have hfst := send_message_turn_fst env store cid message conv hconv
  have hexec : (send_message_turn env store cid message).1
      = if (route_message env.json_loads env.route_resp).tool = "translate"
        then "Sorry, I had trouble translating that: " ++ e
        else "Sorry, I encountered an error: " ++ e := by
    rw [hfst]
    exact execute_and_respond_error env _ _ message _ env.profile _ e hT hR
  have hor : (send_message_turn env store cid message).1
        = "Sorry, I had trouble translating that: " ++ e ∨
      (send_message_turn env store cid message).1
        = "Sorry, I encountered an error: " ++ e := by
    rw [hexec]
    by_cases h : (route_message env.json_loads env.route_resp).tool = "translate"
    · exact Or.inl (by rw [if_pos h])
    · exact Or.inr (by rw [if_neg h])
  refine ⟨hor, ?_, ?_⟩
  · rcases hor with h | h <;> rw [h, String.length_append]
    · have h0 : 0 < String.length "Sorry, I had trouble translating that: " := by decide
      omega
    · have h0 : 0 < String.length "Sorry, I encountered an error: " := by decide
      omega
  · refine ⟨_, send_message_turn_snd env store cid message conv hconv, ?_⟩
    rw [send_message_turn_fst env store cid message conv hconv]

/-- A concrete environment in which every model invocation fails with a
transport error, for the C3 witness. -/
def err_env : TurnEnv :=
  { translation_llm := fun _ => Except.error "connection refused",
    reasoning_llm := fun _ _ => Except.error "connection refused",
    json_loads := fun _ => none,
    route_resp := Except.error "router down",
    mem0 := none,
    profile := [],
    fresh_user_id := "u1",
    fresh_assistant_id := "a1",
    now_user := 10,
    now_assistant := 11 }

/-- Witness for C3 at a concrete failing turn. -/
theorem execution_failure_turn_apology_witness :
    ((send_message_turn err_env demo_store "c" "hi").1
        = "Sorry, I had trouble translating that: " ++ "connection refused" ∨
     (send_message_turn err_env demo_store "c" "hi").1
        = "Sorry, I encountered an error: " ++ "connection refused") ∧
    0 < (send_message_turn err_env demo_store "c" "hi").1.length ∧
    ∃ conv' : Conversation,
      (send_message_turn err_env demo_store "c" "hi").2 "c" = some conv' ∧
      conv'.messages = demo_conv.messages ++
        [mk_message err_env.fresh_user_id "user" "hi" err_env.now_user,
         mk_message err_env.fresh_assistant_id "assistant"
           (send_message_turn err_env demo_store "c" "hi").1 err_env.now_assistant] :=
  execution_failure_turn_apology err_env demo_store "c" "hi" "connection refused"
    demo_conv rfl (fun _ => rfl) (fun _ _ => rfl)

/-! ## Claim C4 — conversation title derivation -/

/-- A conversation that already holds a full first exchange, with a manually
set title, used to refute the "only when exactly one message" direction. -/
def titled_conv : Conversation :=
  { id := "c", title := "Old Title", created_at := 0, updated_at := 0,
    messages := [mk_message "m1" "user" "first message here" 0,
                 mk_message "m2" "assistant" "reply one" 1] }

/-- Store holding only `titled_conv`. -/
def titled_store : Store := fun k => if k = "c" then some titled_conv else none

/-- Counterexample to C4 as stated: on a turn whose user-message append
leaves the conversation with three messages (not exactly one), the code
still derives and persists a title from the first message, overwriting the
previous title — so the "if and only if exactly one message" direction is
false. -/
theorem title_update_not_only_first_counterexample :
    (load_conversation
        ((add_message_to_conversation titled_store "c" "user" "hello"
          demo_env.fresh_user_id demo_env.now_user).2) "c").length = 3 ∧
    titled_conv.title = "Old Title" ∧
    ((send_message_turn demo_env titled_store "c" "hello").2 "c").map Conversation.title
      = some "first message here" ∧
    ("first message here" : String) ≠ "Old Title" := by
  refine ⟨rfl, rfl, ?_, by decide⟩
  rfl

/-- Amended C4: on every turn over an existing conversation, a title is
derived and persisted from the first message of the conversation (the new
user message when the conversation was empty): the first 50 characters of
that message followed by an ellipsis marker exactly when its length exceeds
50, and the full message (the 50-character slice is then the whole string)
with no ellipsis otherwise. -/
theorem conversation_title_derived_every_turn (env : TurnEnv) (store : Store)
    (cid message : String) (conv : Conversation) (hconv : store cid = some conv) :
    ((send_message_turn env store cid message).2 cid).map Conversation.title
      = some
        (take_chars ((conv.messages.headD
            (mk_message env.fresh_user_id "user" message env.now_user)).content) 50
          ++ (if 50 < ((conv.messages.headD
                (mk_message env.fresh_user_id "user" message env.now_user)).content).length
              then "..." else "")) := by
  rw [send_message_turn_snd env store cid message conv hconv]
  rfl

/-- A 51-character first message. -/
def msg51 : String := String.mk (List.replicate 51 'x')

/-- Witness for the amended C4: a first turn whose 51-character message
yields the first 50 characters plus the ellipsis marker as title. -/
theorem conversation_title_derived_every_turn_witness :
    ((send_message_turn demo_env demo_store "c" msg51).2 "c").map Conversation.title
      = some (String.mk (List.replicate 50 'x') ++ "...") := by
  rw [conversation_title_derived_every_turn demo_env demo_store "c" msg51 demo_conv rfl]
  decide

/-! ## Claim C5 — recent-history window and content truncation -/

/-- A 250-character message content, longer than the 200-character slice the
context builder applies. -/
def long_content : String := String.mk (List.replicate 250 'a')

/-- A 7-message conversation history whose most recent message is 250
characters long. -/
def hist7 : List StoredMessage :=
  [mk_message "m1" "user" "h1" 1, mk_message "m2" "assistant" "h2" 2,
   mk_message "m3" "user" "h3" 3, mk_message "m4" "assistant" "h4" 4,
   mk_message "m5" "user" "h5" 5, mk_message "m6" "assistant" "h6" 6,
   mk_message "m7" "user" long_content 7]

/-- Evidence for C5 at the failing input: the window does keep exactly the
six most recent of seven messages in chronological order (the claim's
windowing part holds), but each context line carries only the first 200
characters of the message content followed by `"..."` — the 250-character
content is not read into the context verbatim. -/
theorem recent_history_line_truncated :
    recent_window hist7 = hist7.drop 1 ∧
    (recent_window hist7).length = 6 ∧
    conv_line (mk_message "m7" "user" long_content 7)
      = "user: " ++ String.mk (List.replicate 200 'a') ++ "..." ∧
    take_chars long_content 200 ≠ long_content := by
  refine ⟨rfl, rfl, ?_, by decide⟩
  decide

/-! ## Claim C8 — translate turn reply and its async memory record -/

/-- A concrete environment whose routing call returns the `translate` tool
with decoded arguments, and whose translation model answers. -/
def translate_demo_env : TurnEnv :=
  { translation_llm := fun _ => Except.ok "bonjour",
    reasoning_llm := fun _ _ => Except.ok "hi",
    json_loads := fun _ => none,
    route_resp := Except.ok
      { content := "",
        tool_calls := [{ name := "translate",
                         arguments := ToolArguments.decoded
                           [("text", "good morning"), ("target_language", "French")] }] },
    mem0 := none,
    profile := [],
    fresh_user_id := "u1",
    fresh_assistant_id := "a1",
    now_user := 0,
    now_assistant := 1 }

/-- The reply of the concrete translate turn. -/
def translate_demo_reply : String :=
  chat_with_tutor translate_demo_env "translate good morning to French" [] []

/-- Counterexample to C8 as stated: on the concrete translate turn the reply
does carry the templated prefix plus the translated text, but the async
Mem0 `add` call issued by `_handle_response` passes no metadata at all, so
the appended memory record has no `category` tag — in particular not
`category = "translation"`. -/
theorem translate_memory_uncategorized_counterexample :
    translate_demo_reply
      = "Here\x27s the translation to French:\n\n**bonjour**\n\nWould you like me to break down any part of this?" ∧
    (store_in_mem0_call translate_demo_env.profile "user-1"
        "translate good morning to French" translate_demo_reply).metadata = none ∧
    (store_in_mem0_call translate_demo_env.profile "user-1"
        "translate good morning to French" translate_demo_reply).category = none := by
  refine ⟨?_, rfl, rfl⟩
  decide

/-- Amended C8: for every turn routed to `translate` whose arguments carry
`text` and `target_language` and whose translation model answers, the reply
is the templated prefix plus the translated text; a memory record
summarizing the exchange (user text and tutor reply) is appended
asynchronously, but with no metadata and hence no category tag. -/
theorem translate_reply_template_and_memory_shape (env : TurnEnv) (args : Dict)
    (user_message text target raw user_id pending : String)
    (memories : List String) (history : List StoredMessage)
    (htext : args.lookup "text" = some text)
    (htarget : args.lookup "target_language" = some target)
    (hok : env.translation_llm ("Translate to " ++ target ++ ": " ++ text)
      = Except.ok raw) :
    execute_and_respond env "translate" args user_message memories env.profile history
      = "Here\x27s the translation to " ++ target ++ ":\n\n**" ++ strip_ws raw
        ++ "**\n\nWould you like me to break down any part of this?" ∧
    (store_in_mem0_call env.profile user_id pending
        (execute_and_respond env "translate" args user_message memories
          env.profile history)).metadata = none ∧
    (store_in_mem0_call env.profile user_id pending
        (execute_and_respond env "translate" args user_message memories
          env.profile history)).category = none := by
  have hreply : execute_and_respond env "translate" args user_message memories
      env.profile history
      = "Here\x27s the translation to " ++ target ++ ":\n\n**" ++ strip_ws raw
        ++ "**\n\nWould you like me to break down any part of this?" := by
    unfold execute_and_respond
    simp [dict_get, htext, htarget, hok]
  exact ⟨hreply, rfl, rfl⟩

/-- Witness for the amended C8 at the concrete translate turn. -/
theorem translate_reply_template_and_memory_shape_witness :
    execute_and_respond translate_demo_env "translate"
        [("text", "good morning"), ("target_language", "French")]
        "translate good morning to French" [] translate_demo_env.profile []
      = "Here\x27s the translation to French:\n\n**bonjour**\n\nWould you like me to break down any part of this?" ∧
    (store_in_mem0_call translate_demo_env.profile "user-1"
        "translate good morning to French"
        (execute_and_respond translate_demo_env "translate"
          [("text", "good morning"), ("target_language", "French")]
          "translate good morning to French" [] translate_demo_env.profile [])).metadata
      = none := by
  have h := translate_reply_template_and_memory_shape translate_demo_env
      [("text", "good morning"), ("target_language", "French")]
      "translate good morning to French" "good morning" "French" "bonjour"
      "user-1" "translate good morning to French" [] [] rfl rfl rfl
  refine ⟨?_, h.2.1⟩
  rw [h.1]
  decide

end TranslatorAgent
